import Mathlib

/-!
Shallow embedding of the shulegram payment backend (payment controllers,
webhook reconciliation, escrow release, phone validation) and proofs about
its behaviour. Phone numbers are modelled as lists of characters, monetary
amounts as rationals (JavaScript number division is exact on the values
involved), the Firebase record store as association lists keyed by strings,
and each HTTP handler as a pure function from its free inputs (request,
current store contents, clock value, generated identifiers, gateway
responses) to the new store contents and the HTTP response.
-/

namespace Shulegram

/-! ## Phone normalisation (validateMpesaNumber, controller variant 2)

The controller first removes whitespace, then removes every non-digit
character, then rewrites the local or international form into the canonical
`254XXXXXXXXX` form, and finally checks the 12-digit pattern and the mobile
network lead-in. -/

/-- Analogue of `phone.replace(/\s+/g, '')`. -/
def stripWhitespace (l : List Char) : List Char :=
  l.filter (fun c => !c.isWhitespace)

/-- Analogue of `formattedPhone.replace(/\D/g, '')`. -/

def stripNonDigits (l : List Char) : List Char :=
  l.filter Char.isDigit

/-- Analogue of `String.prototype.startsWith` on character lists:
`leadsWith p l` holds when `p` is an initial segment of `l`. -/

def leadsWith : List Char → List Char → Bool
  | [], _ => true
  | _ :: _, [] => false
  | a :: as, b :: bs => a == b && leadsWith as bs

/-- The Kenya dialing code digits. -/

def kenyaCode : List Char := ['2', '5', '4']

/-- The branch cascade of `validateMpesaNumber` that rewrites the stripped
digit string into canonical form; `none` is the branch that rejects with
the use-format-254 message before the pattern test. -/

def formatPhoneDigits (d : List Char) : Option (List Char) :=
  if leadsWith ['0'] d then some (kenyaCode ++ d.drop 1)
  else if leadsWith ('+' :: kenyaCode) d then some (d.drop 1)
  else if leadsWith kenyaCode d then some d
  else if d.length == 9 then some (kenyaCode ++ d)
  else none

/-- The test `/^254\d{9}$/.test(formattedPhone)`. -/

def matches254Pattern (l : List Char) : Bool :=
  leadsWith kenyaCode l && (l.drop 3).length == 9 && (l.drop 3).all Char.isDigit

/-- The test against `validPrefixes = ['2547', '2541']`. -/

def kenyanMobileStart (l : List Char) : Bool :=
  leadsWith ['2', '5', '4', '7'] l || leadsWith ['2', '5', '4', '1'] l

/-- The `POST /api/payments/validate-phone` handler body: the missing-field
guard, whitespace strip, digit strip, format cascade, 12-digit pattern test
and network lead-in test, returning the canonical number or the error
message of the rejecting branch. -/

def validateMpesaNumber (phone : List Char) : Except String (List Char) :=
  if phone.isEmpty then .error "Phone number is required"
  else
    match formatPhoneDigits (stripNonDigits (stripWhitespace phone)) with
    | none =>
        .error "Invalid phone number format. Please use format: 254XXXXXXXXX or 07XXXXXXXXX"
    | some f =>
        if !matches254Pattern f then
          .error "Invalid phone number format. Should be 254XXXXXXXXX"
        else if !kenyanMobileStart f then
          .error "Invalid Kenyan mobile number prefix"
        else .ok f

/-- The normalisation part of `validateMpesaNumber` on its own: strip, then
the format cascade; when every cascade branch fails the stripped digit
string itself is the (rejected) normal form. -/

def normalizePhone (phone : List Char) : List Char :=
  (formatPhoneDigits (stripNonDigits (stripWhitespace phone))).getD
    (stripNonDigits (stripWhitespace phone))

/-- JavaScript `a || b` for an optional string (absent and empty are falsy). -/
def jsOrString (o : Option String) (dflt : String) : String :=
  match o with
  | none => dflt
  | some s => if s == "" then dflt else s

/-- JavaScript `a || b` where both sides are optional strings. -/

def jsOrOpt (a b : Option String) : Option String :=
  match a with
  | none => b
  | some s => if s == "" then b else some s

/-- JavaScript falsiness of an optional number field (absent or zero). -/

def optNatFalsy (o : Option Nat) : Bool :=
  match o with
  | none => true
  | some n => n == 0

/-- The open metadata bag, restricted to the keys this codebase reads.
JavaScript object spread is modelled by the right-biased merge below. -/

structure Meta where
  payment_type : Option String := none
  booking_id : Option String := none
  userId : Option String := none
  original_reference : Option String := none
  isRetryFlag : Option Bool := none
  payment_method : Option String := none
deriving DecidableEq

/-- Right-biased merge of two metadata bags, the model of
`{ ...a, ...b }`: a key present in `b` wins, otherwise the key of `a`
survives. -/

def Meta.merge (a b : Meta) : Meta where
  payment_type := b.payment_type <|> a.payment_type
  booking_id := b.booking_id <|> a.booking_id
  userId := b.userId <|> a.userId
  original_reference := b.original_reference <|> a.original_reference
  isRetryFlag := b.isRetryFlag <|> a.isRetryFlag
  payment_method := b.payment_method <|> a.payment_method

/-- A transaction ledger record under `payment-transactions/<reference>`,
with every field any of the controllers writes. -/

structure Txn where
  reference : String := ""
  bookingId : Option String := none
  email : String := ""
  phone : Option (List Char) := none
  amount : Rat := 0
  status : String := ""
  paymentMethod : Option String := none
  createdAt : Option Nat := none
  metadata : Meta := {}
  verifiedAt : Option Nat := none
  completedAt : Option Nat := none
  failedAt : Option Nat := none
  cancelledAt : Option Nat := none
  webhookReceived : Option Bool := none
  lastWebhookEvent : Option String := none
  lastWebhookReceived : Option Nat := none
  failureReason : Option String := none
  gatewayResponseText : Option String := none
  paidAtText : Option String := none
  channel : Option String := none
  transferStatus : Option String := none
  transferCompletedAt : Option Nat := none
  transferFailedAt : Option Nat := none
  transferFailureReason : Option String := none
  subscriptionStatus : Option String := none
  lastSubscriptionEvent : Option Nat := none
  notes : Option String := none
  retryReference : Option String := none
  retryCount : Option Nat := none
  lastRetryAt : Option Nat := none
  cancelReason : Option String := none
  checkoutUrl : Option String := none
  initReference : Option String := none
deriving DecidableEq

/-- The negotiation sub-object initialised on a booking-fee success. -/

structure Negotiation where
  status : String := ""
  unlockedBy : String := ""
  unlockedAt : Nat := 0
  messages : List String := []
  offers : List String := []
  lastActivity : Nat := 0
deriving DecidableEq

/-- An entry appended to a booking activity log. `amount` is optional:
the code computes the raw `amount / 100`, which on an absent webhook amount
is NaN in JavaScript, modelled here as an absent field. -/

structure LogEntry where
  action : String := ""
  timestamp : Nat := 0
  paymentReference : String := ""
  amount : Option Rat := none
  triggeredBy : String := ""
  previousStatus : String := ""
  newStatus : String := ""
deriving DecidableEq

/-- A booking record under `bookings/<id>` or `tuition-bookings/<id>`,
restricted to the fields this payment core reads or writes; optional fields
model keys owned by the booking subsystem that may be absent. -/

structure Booking where
  status : Option String := none
  bookingFeePaid : Option Bool := none
  bookingFeeReference : Option String := none
  bookingFeePaidAt : Option Nat := none
  escrowPaid : Option Bool := none
  escrowAmount : Option Rat := none
  escrowReference : Option String := none
  escrowPaidAt : Option Nat := none
  escrowStatus : Option String := none
  lastUpdated : Option Nat := none
  negotiationUnlocked : Option Bool := none
  negotiationUnlockedAt : Option Nat := none
  negotiation : Option Negotiation := none
  parentCompletedAt : Option Nat := none
  teacherCompletedAt : Option Nat := none
  paymentStatus : Option String := none
  paidAt : Option Nat := none
  cancelReason : Option String := none
deriving DecidableEq

/-- A path-addressed key-value store keyed by strings. -/

def Store (α : Type) : Type := List (String × α)

instance {α : Type} [DecidableEq α] : DecidableEq (Store α) :=
  inferInstanceAs (DecidableEq (List (String × α)))

/-- Point read at a key. -/

def Store.get {α : Type} : Store α → String → Option α
  | [], _ => none
  | p :: rest, k => if p.1 == k then some p.2 else Store.get rest k

/-- Point write at a key: replace the record if the key is present,
append a fresh record otherwise. -/

def Store.put {α : Type} : Store α → String → α → Store α
  | [], k, v => [(k, v)]
  | p :: rest, k, v => if p.1 == k then (k, v) :: rest else p :: Store.put rest k v

/-- One write observed at the record store, used to count business effects
of an operation (how many booking updates, how many log appends). -/
inductive DbEvent where
  | txnWrite (reference : String)
  | bookingWrite (bookingId : String)
  | tuitionWrite (bookingId : String)
  | bookingLogPush (bookingId : String)
  | tuitionLogPush (bookingId : String)
deriving DecidableEq

/-- The full database state: the payment-transactions ledger, the two
booking trees, their activity logs, and the trace of writes performed. -/

structure DB where
  transactions : Store Txn := []
  bookings : Store Booking := []
  tuitionBookings : Store Booking := []
  bookingLogs : Store (List LogEntry) := []
  tuitionLogs : Store (List LogEntry) := []
  events : List DbEvent := []
deriving DecidableEq

def DB.putTxn (db : DB) (k : String) (t : Txn) : DB :=
  { db with transactions := db.transactions.put k t,
            events := db.events ++ [.txnWrite k] }

def DB.putBooking (db : DB) (k : String) (b : Booking) : DB :=
  { db with bookings := db.bookings.put k b,
            events := db.events ++ [.bookingWrite k] }

def DB.putTuition (db : DB) (k : String) (b : Booking) : DB :=
  { db with tuitionBookings := db.tuitionBookings.put k b,
            events := db.events ++ [.tuitionWrite k] }

/-- Append to `bookings/<id>/activityLog` (a `push().set(...)`). -/

def DB.pushBookingLog (db : DB) (k : String) (e : LogEntry) : DB :=
  { db with bookingLogs := db.bookingLogs.put k (((db.bookingLogs.get k).getD []) ++ [e]),
            events := db.events ++ [.bookingLogPush k] }

/-- The HTTP response of a handler, restricted to the status code, the
success flag, the message and the `data.reference` field when present. -/

structure HttpResponse where
  status : Nat := 200
  success : Bool := true
  message : String := ""
  dataReference : Option String := none
deriving DecidableEq

/-! ## Webhook verification and the reconciliation handlers -/

/-- Environment configuration the controllers read; `none` models an unset
(or empty, hence falsy) variable. -/

structure Env where
  webhookSecret : Option String := none
  secretKey : Option String := none
deriving DecidableEq

/-- The parsed `data` object of an inbound Paystack webhook body. -/

structure WebhookData where
  reference : Option String := none
  metadata : Option Meta := none
  amount : Option Rat := none
  gatewayResponseText : Option String := none
deriving DecidableEq

/-- An inbound webhook body: `{ event, data }`. -/

structure WebhookEvent where
  event : String := ""
  data : WebhookData := {}
deriving DecidableEq

/-- An inbound webhook request: the body plus the `x-paystack-signature`
header when present. -/

structure WebhookRequest where
  body : WebhookEvent := {}
  signature : Option String := none
deriving DecidableEq

/-- verifyWebhookSignature: false when the secret is unset, false when the
header is absent, otherwise a constant-time comparison of the HMACSHA512
hex digest of the serialised body against the header. `hmacSha512` abstracts
`crypto.createHmac` composed with `JSON.stringify`; `timingSafeEqual` throws
on length mismatch but the surrounding try/catch turns that into false, so
plain string equality captures the result. -/

def verifyWebhookSignature (hmacSha512 : String → WebhookEvent → String)
    (env : Env) (req : WebhookRequest) : Bool :=
  match env.webhookSecret with
  | none => false
  | some secret =>
      match req.signature with
      | none => false
      | some sig => hmacSha512 secret req.body == sig

/-- The `amount ? amount / 100 : transaction.amount` guard of the common
webhook update object (JavaScript zero is falsy). -/

def webhookAmount (evAmount : Option Rat) (txnAmount : Rat) : Rat :=
  match evAmount with
  | none => txnAmount
  | some a => if a == 0 then txnAmount else a / 100

/-- The `updateData` object shared by every webhook branch. -/

def webhookBaseTxn (txn : Txn) (eventType : String) (now : Nat) (amt : Rat) : Txn :=
  { txn with
    lastWebhookEvent := some eventType
    lastWebhookReceived := some now
    amount := amt }

/-- The webhook handler of controller variant 1 (`paymentController`):
signature check, reference lookup, then the event-type switch. Returns the
new database plus the HTTP response. -/

def handleWebhook (hmacSha512 : String → WebhookEvent → String) (env : Env)
    (now : Nat) (db : DB) (req : WebhookRequest) : DB × HttpResponse :=
  if !verifyWebhookSignature hmacSha512 env req then
    (db, { status := 401, success := false, message := "Invalid webhook signature" })
  else
    match req.body.data.reference with
    | none => (db, { status := 400, success := false, message := "Missing reference" })
    | some reference =>
      if reference == "" then
        (db, { status := 400, success := false, message := "Missing reference" })
      else
        match db.transactions.get reference with
        | none => (db, { status := 404, success := false, message := "Transaction not found" })
        | some txn =>
          let metadata := req.body.data.metadata.getD {}
          let bookingId := jsOrOpt metadata.booking_id txn.bookingId
          let base := webhookBaseTxn txn req.body.event now
            (webhookAmount req.body.data.amount txn.amount)
          if req.body.event == "charge.success" then
            let db1 := db.putTxn reference
              { base with
                status := "success"
                completedAt := some now
                webhookReceived := some true
                metadata := txn.metadata.merge metadata }
            let db2 :=
              match bookingId with
              | none => db1
              | some bid =>
                let old := (db1.bookings.get bid).getD {}
                let upd0 : Booking :=
                  { old with
                    lastUpdated := some now
                    status := some (if metadata.payment_type == some "booking_fee"
                      then "negotiating" else "confirmed") }
                let upd : Booking :=
                  if metadata.payment_type == some "booking_fee" then
                    { upd0 with
                      bookingFeePaid := some true
                      bookingFeeReference := some reference
                      bookingFeePaidAt := some now }
                  else if metadata.payment_type == some "escrow" then
                    { upd0 with
                      escrowPaid := some true
                      escrowAmount := req.body.data.amount.map (fun a => a / 100)
                      escrowReference := some reference
                      escrowPaidAt := some now
                      escrowStatus := some "held" }
                  else upd0
                db1.putBooking bid upd
            (db2, { status := 200, success := true })
          else if req.body.event == "charge.failed" then
            (db.putTxn reference
              { base with
                status := "failed"
                failedAt := some now
                failureReason :=
                  some (jsOrString req.body.data.gatewayResponseText "Unknown error")
                metadata := txn.metadata.merge metadata },
             { status := 200, success := true })
          else if req.body.event == "transfer.success" then
            (db.putTxn reference
              { base with
                transferStatus := some "success"
                transferCompletedAt := some now },
             { status := 200, success := true })
          else if req.body.event == "transfer.failed" then
            (db.putTxn reference
              { base with
                transferStatus := some "failed"
                transferFailedAt := some now
                transferFailureReason :=
                  some (jsOrString req.body.data.gatewayResponseText "Unknown error") },
             { status := 200, success := true })
          else if req.body.event == "subscription.create"
              || req.body.event == "subscription.disable"
              || req.body.event == "subscription.not_renew" then
            (db.putTxn reference
              { base with
                subscriptionStatus := some ((req.body.event.splitOn ".").getD 1 "")
                lastSubscriptionEvent := some now },
             { status := 200, success := true })
          else
            (db.putTxn reference
              { base with notes := some ("Unhandled event type: " ++ req.body.event) },
             { status := 200, success := true })

/-- Right-biased field merge of a partial-update object into an existing
booking record: the model of `ref.update(obj)` when `obj` was built by
spreading another record (a key present in the update wins, an absent key
leaves the stored value). -/

def Booking.mergeFrom (oldB updB : Booking) : Booking where
  status := updB.status <|> oldB.status
  bookingFeePaid := updB.bookingFeePaid <|> oldB.bookingFeePaid
  bookingFeeReference := updB.bookingFeeReference <|> oldB.bookingFeeReference
  bookingFeePaidAt := updB.bookingFeePaidAt <|> oldB.bookingFeePaidAt
  escrowPaid := updB.escrowPaid <|> oldB.escrowPaid
  escrowAmount := updB.escrowAmount <|> oldB.escrowAmount
  escrowReference := updB.escrowReference <|> oldB.escrowReference
  escrowPaidAt := updB.escrowPaidAt <|> oldB.escrowPaidAt
  escrowStatus := updB.escrowStatus <|> oldB.escrowStatus
  lastUpdated := updB.lastUpdated <|> oldB.lastUpdated
  negotiationUnlocked := updB.negotiationUnlocked <|> oldB.negotiationUnlocked
  negotiationUnlockedAt := updB.negotiationUnlockedAt <|> oldB.negotiationUnlockedAt
  negotiation := updB.negotiation <|> oldB.negotiation
  parentCompletedAt := updB.parentCompletedAt <|> oldB.parentCompletedAt
  teacherCompletedAt := updB.teacherCompletedAt <|> oldB.teacherCompletedAt
  paymentStatus := updB.paymentStatus <|> oldB.paymentStatus
  paidAt := updB.paidAt <|> oldB.paidAt
  cancelReason := updB.cancelReason <|> oldB.cancelReason

/-- The webhook handler of controller variant 2 (the logger variant). Its
try block re-declares `event` and `reference` as block-scoped const
bindings (the `const event = req.body` and the destructuring of `data`),
but references both names earlier in the same block, in the logger calls
on the two signature-check paths; those references fall in the temporal
dead zone of the block bindings, so every invocation throws a
ReferenceError after the signature check and before any database read or
write. The catch answers 500 with the engine message, and the store is
never touched on any path. -/
def handleWebhookL (_hmacSha512 : String → WebhookEvent → String) (_env : Env)
    (_now : Nat) (db : DB) (_req : WebhookRequest) : DB × HttpResponse :=
  (db, { status := 500, success := false,
         message := "Cannot access 'event' before initialization" })


/-- The body of `POST /api/payments/initialize`. -/

structure InitRequest where
  email : String := ""
  amount : Option Rat := none
  bookingId : String := ""
  metadata : Meta := {}
deriving DecidableEq

/-- The initialize handler of controller variant 1: validates presence of
email, amount and bookingId, generates a `booking_`-prefixed reference from
a fresh dashless UUID, calls the gateway (its outcome is the parameter
`gatewayOk`), and on gateway success creates the pending ledger entry. The
gateway payload amount is the rounded minor-unit value, but the ledger
stores the display amount as passed. -/

def initializePayment (gatewayOk : Bool) (uuidHex : String) (now : Nat)
    (db : DB) (req : InitRequest) : DB × HttpResponse :=
  if req.email == "" || req.amount.getD 0 == 0 || req.bookingId == "" then
    (db, { status := 400, success := false,
           message := "Missing required fields: email, amount, bookingId" })
  else if gatewayOk then
    (db.putTxn ("booking_" ++ uuidHex)
      { reference := "booking_" ++ uuidHex
        bookingId := some req.bookingId
        email := req.email
        amount := req.amount.getD 0
        status := "pending"
        createdAt := some now
        metadata := req.metadata },
     { status := 200, success := true, message := "Payment initialized successfully",
       dataReference := some ("booking_" ++ uuidHex) })
  else
    (db, { status := 400, success := false, message := "Failed to initialize payment" })

/-- The `data` object of a successful gateway verify call. -/

structure VerifyGatewayData where
  status : String := ""
  amount : Rat := 0
  gatewayResponseText : Option String := none
  paidAtText : Option String := none
  channel : Option String := none
  metadata : Meta := {}
  reference : String := ""
deriving DecidableEq

/-- A gateway verify response: `ok` is `response.data.status`. -/

structure VerifyGatewayResponse where
  ok : Bool := true
  data : VerifyGatewayData := {}
deriving DecidableEq

/-- The verify handler of controller variant 1: updates the ledger entry
with the gateway truth (creating the record fields when the entry is
absent, as a Firebase update does), then on gateway status `success`
branches on `metadata.payment_type` to update the booking. An absent
`metadata.booking_id` makes the code write under the literal path
`bookings/undefined`, modelled by the key "undefined". -/

def verifyPayment (gw : VerifyGatewayResponse) (now : Nat) (db : DB)
    (reference : String) : DB × HttpResponse :=
  if reference == "" then
    (db, { status := 400, success := false, message := "Payment reference is required" })
  else if !gw.ok then
    (db, { status := 400, success := false, message := "Payment verification failed" })
  else
    let db1 := db.putTxn reference
      { ((db.transactions.get reference).getD {}) with
        status := gw.data.status
        verifiedAt := some now
        gatewayResponseText := gw.data.gatewayResponseText
        paidAtText := gw.data.paidAtText
        channel := gw.data.channel }
    let db2 :=
      if gw.data.status == "success" then
        let bid := (gw.data.metadata.booking_id).getD "undefined"
        if jsOrString gw.data.metadata.payment_type "booking" == "booking_fee" then
          db1.putBooking bid
            { ((db1.bookings.get bid).getD {}) with
              bookingFeePaid := some true
              bookingFeeReference := some reference
              bookingFeePaidAt := some now
              status := some "negotiating" }
        else if jsOrString gw.data.metadata.payment_type "booking" == "escrow" then
          db1.putBooking bid
            { ((db1.bookings.get bid).getD {}) with
              escrowPaid := some true
              escrowAmount := some (gw.data.amount / 100)
              escrowReference := some reference
              escrowPaidAt := some now
              escrowStatus := some "held" }
        else db1
      else db1
    (db2, { status := 200, success := true, message := "Payment verified successfully",
            dataReference := some gw.data.reference })

/-- The body of `POST /api/payments/release-escrow`. -/

structure ReleaseRequest where
  bookingId : String := ""
  teacherPhone : String := ""
  amount : Option Rat := none
deriving DecidableEq

/-- The escrow release handler of controller variant 1 (under `bookings/`):
requires both completion timestamps (JS-truthy) and an escrow that is not
already released, then flips the booking to released/paid/completed. -/

def releaseEscrow (now : Nat) (db : DB) (req : ReleaseRequest) : DB × HttpResponse :=
  if req.bookingId == "" || req.teacherPhone == "" || req.amount.getD 0 == 0 then
    (db, { status := 400, success := false,
           message := "Missing required fields: bookingId, teacherPhone, amount" })
  else
    match db.bookings.get req.bookingId with
    | none => (db, { status := 404, success := false, message := "Booking not found" })
    | some b =>
      if optNatFalsy b.parentCompletedAt || optNatFalsy b.teacherCompletedAt then
        (db, { status := 400, success := false,
               message := "Both parties must confirm completion before releasing escrow" })
      else if b.escrowStatus == some "released" then
        (db, { status := 400, success := false,
               message := "Escrow has already been released" })
      else
        (db.putBooking req.bookingId
          { b with
            escrowStatus := some "released"
            paymentStatus := some "paid"
            paidAt := some now
            status := some "completed" },
         { status := 200, success := true,
           message := "Escrow payment released successfully" })

/-- The cancel handler (controller variant 2): a success or already
cancelled transaction is rejected without any write; otherwise the ledger
entry is marked cancelled and, when a JS-truthy bookingId is recorded, the
booking under `bookings/` is cancelled as well. -/

def cancelPayment (now : Nat) (db : DB) (reference : String)
    (reason : Option String) : DB × HttpResponse :=
  if reference == "" then
    (db, { status := 400, success := false, message := "Payment reference is required" })
  else
    match db.transactions.get reference with
    | none => (db, { status := 404, success := false, message := "Transaction not found" })
    | some txn =>
      if txn.status == "success" then
        (db, { status := 400, success := false, message := "Cannot cancel completed payment" })
      else if txn.status == "cancelled" then
        (db, { status := 400, success := false, message := "Payment already cancelled" })
      else
        let db1 := db.putTxn reference
          { txn with
            status := "cancelled"
            cancelledAt := some now
            cancelReason := some (jsOrString reason "User requested cancellation") }
        let db2 :=
          match jsOrOpt txn.bookingId none with
          | none => db1
          | some bid =>
            db1.putBooking bid
              { ((db1.bookings.get bid).getD {}) with
                lastUpdated := some now
                status := some "cancelled"
                cancelReason := some (jsOrString reason "Payment cancelled") }
        (db2, { status := 200, success := true,
                message := "Payment cancelled successfully",
                dataReference := some reference })

/-! ## M-Pesa charge, retry and test mode -/

/-- The body of the MPesa payment endpoints. -/

structure MpesaRequest where
  phone : List Char := []
  amount : Option Rat := none
  email : String := ""
  bookingId : String := ""
  metadata : Meta := {}
deriving DecidableEq

/-- The phone formatting used by processMpesaPayment (production branch)
and processMpesaPaymentDirect: strips whitespace only (no digit strip) and
applies the 0/+254/254 cascade, falling through to prepending 254. -/

def formatPhoneLoose (phone : List Char) : List Char :=
  if leadsWith ['0'] (stripWhitespace phone) then
    kenyaCode ++ (stripWhitespace phone).drop 1
  else if leadsWith ('+' :: kenyaCode) (stripWhitespace phone) then
    (stripWhitespace phone).drop 1
  else if leadsWith kenyaCode (stripWhitespace phone) then
    stripWhitespace phone
  else
    kenyaCode ++ stripWhitespace phone

/-- JavaScript `a || b` for optional phone values (an empty string is
falsy). -/

def jsOrPhone (a b : Option (List Char)) : Option (List Char) :=
  match a with
  | none => b
  | some p => if p.isEmpty then b else some p

/-- The reference generated by processMpesaPaymentDirect from the clock,
a random base-36 fragment and a random zero-padded counter. -/

def mpesaDirectReference (bookingId : String) (timestamp : Nat)
    (randomString counter : String) : String :=
  "mpesa_" ++ bookingId ++ "_" ++ toString timestamp ++ "_" ++ randomString
    ++ "_" ++ counter

/-- The direct MPesa charge handler (controller variant 2): validates
fields and phone format, performs the gateway charge (`gatewayUp` is
whether the call returns rather than throws; the response body is not
consulted for the ledger), then records a pending ledger entry under the
generated `mpesa_` reference, storing the plus-prefixed phone. -/

def processMpesaPaymentDirect (gatewayUp : Bool) (timestamp : Nat)
    (randomString counter : String) (now : Nat) (db : DB)
    (req : MpesaRequest) : DB × HttpResponse :=
  if req.phone.isEmpty || req.amount.getD 0 == 0 || req.email == ""
      || req.bookingId == "" then
    (db, { status := 400, success := false,
           message := "Missing required fields: phone, amount, email, bookingId" })
  else if !matches254Pattern (formatPhoneLoose req.phone) then
    (db, { status := 400, success := false,
           message := "Invalid phone number format. Should be 254XXXXXXXXX" })
  else if !gatewayUp then
    (db, { status := 500, success := false, message := "Internal server error" })
  else
    (db.putTxn (mpesaDirectReference req.bookingId timestamp randomString counter)
      { reference := mpesaDirectReference req.bookingId timestamp randomString counter
        bookingId := some req.bookingId
        email := req.email
        phone := some ('+' :: formatPhoneLoose req.phone)
        amount := req.amount.getD 0
        status := "pending"
        paymentMethod := some "mpesa"
        createdAt := some now
        metadata := req.metadata },
     { status := 200, success := true,
       message := "MPesa payment initiated. Check your phone for the prompt."
       dataReference := some (mpesaDirectReference req.bookingId timestamp randomString counter) })

/-- The retry handler (controller variant 2): only a transaction whose
current status is failed proceeds; the original entry is marked retrying
with a fresh `retry_` reference recorded on it, and the retry is delegated
to processMpesaPaymentDirect with the original amount, bookingId and
metadata extended with `original_reference`. The direct handler sends the
HTTP response first; the res.status(200).json that follows in this handler
(and the catch fallback) throw ERR_HTTP_HEADERS_SENT because the headers
are already sent, so the caller observes the direct handler response and
every database write stands. -/

def retryMpesaPayment (uuid : String) (gatewayUp : Bool) (timestamp : Nat)
    (randomString counter : String) (now : Nat) (db : DB) (reference : String)
    (phone : Option (List Char)) (email : Option String) : DB × HttpResponse :=
  if reference == "" then
    (db, { status := 400, success := false, message := "Payment reference is required" })
  else
    match db.transactions.get reference with
    | none => (db, { status := 404, success := false, message := "Transaction not found" })
    | some txn =>
      if txn.status != "failed" then
        (db, { status := 400, success := false,
               message := "Only failed transactions can be retried" })
      else
        processMpesaPaymentDirect gatewayUp timestamp randomString counter now
          (db.putTxn reference
            { txn with
              status := "retrying"
              retryReference := some ("retry_" ++ uuid)
              retryCount := some (txn.retryCount.getD 0 + 1)
              lastRetryAt := some now })
          { phone := (jsOrPhone phone txn.phone).getD []
            email := jsOrString email txn.email
            amount := some txn.amount
            bookingId := txn.bookingId.getD ""
            metadata := { txn.metadata with
              original_reference := some reference
              isRetryFlag := some true } }

/-- The fixed test amounts of processMpesaPayment test mode. -/

def testAmounts : List Rat := [100, 200, 300, 400, 500, 600, 700, 800, 900, 1000]

/-- The Paystack test MPesa number substituted in test mode. -/

def paystackTestPhone : List Char :=
  ['2', '5', '4', '7', '0', '8', '3', '7', '4', '1', '7', '6']

/-- `String.prototype.startsWith` via the character lists (the core
String.startsWith does not reduce in the kernel). -/

def strStartsWith (s pre : String) : Bool := leadsWith pre.toList s.toList

/-- The `chargeResponse.data.status` value, which the gateway returns
either as a boolean or as a string. -/

inductive ChargeStatus where
  | boolStatus (b : Bool)
  | strStatus (v : String)
deriving DecidableEq

/-- The STK-push MPesa handler of controller variant 1. In test mode
(secret key starting `sk_test_`) the caller phone and email are replaced by
Paystack test credentials and the amount by a random element of
testAmounts (`randIdx` models `Math.floor(Math.random() * 10)`), no phone
validation occurs, and only the initialize step runs before the pending
ledger write under the `init_` reference. In production the phone is
formatted and validated, the charge step runs, and the ledger entry under
the `chg_` reference records pending exactly when the charge status is the
boolean true. -/

def processMpesaPayment (env : Env) (randIdx : Fin 10) (uuid1 uuid2 : String)
    (gatewayUp : Bool) (initOk : Bool) (accessCode : String)
    (chargeStatus : ChargeStatus) (now : Nat) (db : DB) (req : MpesaRequest) :
    DB × HttpResponse :=
  if req.phone.isEmpty || req.amount.getD 0 == 0 || req.email == ""
      || req.bookingId == "" then
    (db, { status := 400, success := false,
           message := "Missing required fields: phone, amount, email, bookingId" })
  else if strStartsWith (env.secretKey.getD "") "sk_test_" then
    if !gatewayUp then
      (db, { status := 500, success := false, message := "Internal server error" })
    else if !initOk then
      (db, { status := 400, success := false, message := "Failed to initialize payment" })
    else
      (db.putTxn ("init_" ++ uuid1)
        { reference := "init_" ++ uuid1
          bookingId := some req.bookingId
          email := "test@example.com"
          phone := some paystackTestPhone
          amount := testAmounts.getD randIdx.val 0
          status := "pending"
          paymentMethod := some "mpesa"
          checkoutUrl := some ("https://checkout.paystack.com/" ++ accessCode)
          createdAt := some now
          metadata := req.metadata },
       { status := 200, success := true,
         message := "Payment initialized. Please check your phone for STK push."
         dataReference := some ("init_" ++ uuid1) })
  else if !matches254Pattern (formatPhoneLoose req.phone) then
    (db, { status := 400, success := false,
           message := "Invalid phone number format. Should be 254XXXXXXXXX" })
  else if !gatewayUp then
    (db, { status := 500, success := false, message := "Internal server error" })
  else if !initOk then
    (db, { status := 400, success := false, message := "Failed to initialize payment" })
  else
    (db.putTxn ("chg_" ++ uuid2)
      { reference := "chg_" ++ uuid2
        initReference := some ("init_" ++ uuid1)
        bookingId := some req.bookingId
        email := req.email
        phone := some (formatPhoneLoose req.phone)
        amount := req.amount.getD 0
        status := if chargeStatus == .boolStatus true then "pending" else "failed"
        paymentMethod := some "mpesa"
        createdAt := some now
        metadata := req.metadata },
     if chargeStatus == .strStatus "success" || chargeStatus == .boolStatus true then
       { status := 200, success := true,
         message := "MPesa STK push sent. Please check your phone to complete payment." }
     else if chargeStatus == .strStatus "send_otp"
         || chargeStatus == .strStatus "pending" then
       { status := 200, success := true,
         message := "Payment pending. Check your phone for prompt." }
     else
       { status := 400, success := false,
         message := "Failed to initiate MPesa payment" })

/-! ## Concrete fixtures used by witnesses and counterexamples -/

/-- A sample HMAC function for concrete runs: every payload digests to
"sig" under any secret. -/

def sampleHmac : String → WebhookEvent → String := fun _ _ => "sig"

/-- A sample environment with a configured webhook secret. -/

def sampleEnv : Env := { webhookSecret := some "whsec" }

/-- Count the `bookings/` record writes in a write trace. -/

def countBookingWrites (evs : List DbEvent) : Nat :=
  (evs.filter fun e => match e with | .bookingWrite _ => true | _ => false).length

/-- The number of entries in a booking activity log. -/

def bookingLogCount (db : DB) (bid : String) : Nat :=
  ((db.bookingLogs.get bid).getD []).length

/-! ## C1: unverified webhooks are rejected without any state change -/


/-- The initial database of the C5 scenario: booking bk1 exists, no ledger
entries yet. -/
def c5Db0 : DB := { bookings := [("bk1", {})] }

/-- The initialize request of the C5 scenario. -/

def c5InitReq : InitRequest :=
  { email := "a@b.com", amount := some 500, bookingId := "bk1",
    metadata := { payment_type := some "booking_fee" } }

/-- The database after the C5 initialize call (gateway accepted, fresh
UUID hex u123, clock 10). -/

def c5Db1 : DB := (initializePayment true "u123" 10 c5Db0 c5InitReq).1

/-- The charge.success webhook of the C5 scenario, for the created
reference, carrying payment_type booking_fee and the minor-unit amount. -/

def c5WebhookReq : WebhookRequest :=
  { body := { event := "charge.success"
              data := { reference := some "booking_u123"
                        metadata := some { payment_type := some "booking_fee" }
                        amount := some 50000 } }
    signature := some "sig" }

/-- The database after the C5 webhook delivery. -/

def c5Db2 : DB := (handleWebhook sampleHmac sampleEnv 20 c5Db1 c5WebhookReq).1


/-- The C2 counterexample database: transaction r1 has already reached
success. -/
def c2Db : DB :=
  { transactions := [("r1", { reference := "r1", status := "success" })] }

/-- A correctly signed charge.failed webhook for r1. -/

def c2Req : WebhookRequest :=
  { body := { event := "charge.failed", data := { reference := some "r1" } }
    signature := some "sig" }


/-- The C3 database: transaction r3 already in success, booking bk3 present. -/
def c3Db : DB :=
  { transactions := [("r3",
      { reference := "r3", status := "success", bookingId := some "bk3",
        email := "p@x.com" })]
    bookings := [("bk3", {})] }

/-- A signed charge.success webhook for r3 with payment_type booking_fee. -/

def c3Req : WebhookRequest :=
  { body := { event := "charge.success"
              data := { reference := some "r3"
                        metadata := some { payment_type := some "booking_fee" }
                        amount := some 50000 } }
    signature := some "sig" }

/-- The database after the first delivery through the variant-1 handler. -/

def c3Db1 : DB := (handleWebhook sampleHmac sampleEnv 1 c3Db c3Req).1

/-- The database after the duplicate delivery through the variant-1
handler. -/

def c3Db2 : DB := (handleWebhook sampleHmac sampleEnv 2 c3Db1 c3Req).1


/-- The C4 database: pending transaction r4 tied to booking bk4, whose
status is pending. -/
def c4Db : DB :=
  { transactions := [("r4",
      { reference := "r4", status := "pending", bookingId := some "bk4" })]
    bookings := [("bk4", { status := some "pending" })] }

/-- A signed charge.success webhook for r4 with payment_type escrow. -/

def c4Req : WebhookRequest :=
  { body := { event := "charge.success"
              data := { reference := some "r4"
                        metadata := some { payment_type := some "escrow" }
                        amount := some 80000 } }
    signature := some "sig" }


/-- An environment whose Paystack secret is a test key. -/
def testEnvC10 : Env := { secretKey := some "sk_test_abc" }

/-- A concrete MPesa request asking for amount 50. -/

def c10Req : MpesaRequest :=
  { phone := ['0', '7', '1', '2', '3', '4', '5', '6', '7', '8'], amount := some 50,
    email := "u@x.com", bookingId := "bk" }


/-! ## Theorems -/

theorem leadsWith_append (p l : List Char) : leadsWith p (p ++ l) = true := by
  induction p with
  | nil => rfl
  | cons a as ih => simp [leadsWith, ih]

theorem leadsWith_exists {p l : List Char} (h : leadsWith p l = true) :
    ∃ r, l = p ++ r := by
  induction p generalizing l with
  | nil => exact ⟨l, rfl⟩
  | cons a as ih =>
    cases l with
    | nil => simp [leadsWith] at h
    | cons b bs =>
      simp only [leadsWith, Bool.and_eq_true, beq_iff_eq] at h
      obtain ⟨r, hr⟩ := ih h.2
      exact ⟨r, by simp [h.1, hr]⟩

theorem isDigit_not_whitespace {c : Char} (h : c.isDigit = true) :
    c.isWhitespace = false := by
  simp only [Char.isDigit, decide_eq_true_eq, Bool.and_eq_true] at h
  have h1 := h.1
  simp only [Char.isWhitespace, Bool.or_eq_false_iff, decide_eq_false_iff_not]
  repeat' apply And.intro
  all_goals rintro rfl
  all_goals exact absurd h1 (by decide)

theorem stripWhitespace_of_digits {l : List Char} (h : l.all Char.isDigit = true) :
    stripWhitespace l = l := by
  rw [stripWhitespace, List.filter_eq_self]
  intro a ha
  simp only [List.all_eq_true] at h
  simp [isDigit_not_whitespace (h a ha)]

theorem stripNonDigits_of_digits {l : List Char} (h : l.all Char.isDigit = true) :
    stripNonDigits l = l := by
  rw [stripNonDigits, List.filter_eq_self]
  intro a ha
  simp only [List.all_eq_true] at h
  exact h a ha

theorem formatPhoneDigits_canon (d : List Char) :
    formatPhoneDigits (kenyaCode ++ d) = some (kenyaCode ++ d) := by
  have h0 : leadsWith ['0'] (kenyaCode ++ d) = false := by
    simp [kenyaCode, leadsWith]
  have hp : leadsWith ('+' :: kenyaCode) (kenyaCode ++ d) = false := by
    simp [kenyaCode, leadsWith]
  simp [formatPhoneDigits, h0, hp, leadsWith_append]

theorem matches254Pattern_canon {d : List Char} (hd9 : d.length = 9)
    (hdig : d.all Char.isDigit = true) :
    matches254Pattern (kenyaCode ++ d) = true := by
  have hdrop : (kenyaCode ++ d).drop 3 = d := by simp [kenyaCode]
  simp [matches254Pattern, leadsWith_append, hdrop, hd9, hdig]

theorem all_digits_canon {d : List Char} (hdig : d.all Char.isDigit = true) :
    (kenyaCode ++ d).all Char.isDigit = true := by
  simp only [kenyaCode, List.all_append, List.all_cons, List.all_nil, hdig]
  decide

theorem validateMpesaNumber_canon {d : List Char} (hd9 : d.length = 9)
    (hdig : d.all Char.isDigit = true)
    (hstart : kenyanMobileStart (kenyaCode ++ d) = true) :
    validateMpesaNumber (kenyaCode ++ d) = .ok (kenyaCode ++ d) := by
  have hall := all_digits_canon hdig
  have hem : (kenyaCode ++ d).isEmpty = false := by simp [kenyaCode]
  unfold validateMpesaNumber
  rw [hem, stripWhitespace_of_digits hall, stripNonDigits_of_digits hall,
    formatPhoneDigits_canon]
  simp [matches254Pattern_canon hd9 hdig, hstart]

theorem validateMpesaNumber_ok_inv {x f : List Char}
    (h : validateMpesaNumber x = .ok f) :
    matches254Pattern f = true ∧ kenyanMobileStart f = true ∧
      formatPhoneDigits (stripNonDigits (stripWhitespace x)) = some f := by
  unfold validateMpesaNumber at h
  split at h
  · exact absurd h (by simp)
  · cases hfmt : formatPhoneDigits (stripNonDigits (stripWhitespace x)) with
    | none => rw [hfmt] at h; exact absurd h (by simp)
    | some g =>
      rw [hfmt] at h
      dsimp only at h
      cases hm : matches254Pattern g with
      | false => rw [hm] at h; simp at h
      | true =>
        rw [hm] at h
        cases hs : kenyanMobileStart g with
        | false => rw [hs] at h; simp at h
        | true =>
          rw [hs] at h
          simp only [Bool.not_true, Bool.false_eq_true, if_false,
            Except.ok.injEq] at h
          subst h
          exact ⟨hm, hs, rfl⟩

theorem validateMpesaNumber_isOk_iff (phone : List Char) (h : phone ≠ []) :
    (validateMpesaNumber phone).isOk = true ↔
      (matches254Pattern (normalizePhone phone) &&
       kenyanMobileStart (normalizePhone phone)) = true := by
  have hne : phone.isEmpty = false := by
    cases phone with
    | nil => exact absurd rfl h
    | cons a l => rfl
  unfold validateMpesaNumber normalizePhone
  rw [hne]
  simp only [Bool.false_eq_true, if_false]
  cases hfmt : formatPhoneDigits (stripNonDigits (stripWhitespace phone)) with
  | none =>
    have hlead : leadsWith kenyaCode (stripNonDigits (stripWhitespace phone)) = false := by
      unfold formatPhoneDigits at hfmt
      split_ifs at hfmt with h1 h2 h3 h4
      exact Bool.not_eq_true _ ▸ h3
    simp [matches254Pattern, hlead, Except.isOk, Except.toBool]
  | some f =>
    cases hm : matches254Pattern f <;> cases hs : kenyanMobileStart f <;>
      simp [hm, hs, Except.isOk, Except.toBool]

/-- C8: validateMpesaNumber strips whitespace and non-digit characters,
accepts the local 0XXXXXXXXX, international 254XXXXXXXXX and plus-prefixed
+254XXXXXXXXX forms, rewriting each to the canonical 12-digit 254XXXXXXXXX
string, and it fails with an invalid-phone error exactly when the
normalised result does not match 254 followed by nine digits or when the
leading subscriber digit is outside the recognised mobile-network lead-in
set. -/

theorem validateMpesaNumber_spec :
    (∀ phone : List Char, phone ≠ [] →
      ((validateMpesaNumber phone).isOk = true ↔
        (matches254Pattern (normalizePhone phone) &&
         kenyanMobileStart (normalizePhone phone)) = true)) ∧
    (∀ d : List Char, d.length = 9 → d.all Char.isDigit = true →
      kenyanMobileStart (kenyaCode ++ d) = true →
      validateMpesaNumber ('0' :: d) = .ok (kenyaCode ++ d) ∧
      validateMpesaNumber (kenyaCode ++ d) = .ok (kenyaCode ++ d) ∧
      validateMpesaNumber ('+' :: (kenyaCode ++ d)) = .ok (kenyaCode ++ d)) := by
  constructor
  · exact validateMpesaNumber_isOk_iff
  · intro d hd9 hdig hstart
    have hall0 : ('0' :: d).all Char.isDigit = true := by
      simp only [List.all_cons, hdig]
      decide
    have hcanon := validateMpesaNumber_canon hd9 hdig hstart
    refine ⟨?_, hcanon, ?_⟩
    · unfold validateMpesaNumber
      rw [show ('0' :: d).isEmpty = false from rfl,
        stripWhitespace_of_digits hall0, stripNonDigits_of_digits hall0]
      have hfmt : formatPhoneDigits ('0' :: d) = some (kenyaCode ++ d) := by
        simp [formatPhoneDigits, leadsWith]
      rw [hfmt]
      simp [matches254Pattern_canon hd9 hdig, hstart]
    · have hallc := all_digits_canon hdig
      have hws : stripWhitespace ('+' :: (kenyaCode ++ d)) = '+' :: (kenyaCode ++ d) := by
        unfold stripWhitespace
        rw [List.filter_cons_of_pos (by decide)]
        rw [← stripWhitespace, stripWhitespace_of_digits hallc]
      have hnd : stripNonDigits ('+' :: (kenyaCode ++ d)) = kenyaCode ++ d := by
        unfold stripNonDigits
        rw [List.filter_cons_of_neg (by decide)]
        rw [← stripNonDigits, stripNonDigits_of_digits hallc]
      unfold validateMpesaNumber
      rw [show ('+' :: (kenyaCode ++ d)).isEmpty = false from rfl,
        hws, hnd, formatPhoneDigits_canon]
      simp [matches254Pattern_canon hd9 hdig, hstart]

/-- Closed instance of validateMpesaNumber_spec: applies both conjuncts at a
concrete phone number. -/

theorem validateMpesaNumber_spec_witness :
    (((validateMpesaNumber ('0' :: ['7', '1', '2', '3', '4', '5', '6', '7', '8'])).isOk = true ↔
      (matches254Pattern (normalizePhone ('0' :: ['7', '1', '2', '3', '4', '5', '6', '7', '8'])) &&
       kenyanMobileStart (normalizePhone ('0' :: ['7', '1', '2', '3', '4', '5', '6', '7', '8']))) = true)) ∧
    (validateMpesaNumber ('0' :: ['7', '1', '2', '3', '4', '5', '6', '7', '8']) =
      .ok (kenyaCode ++ ['7', '1', '2', '3', '4', '5', '6', '7', '8']) ∧
     validateMpesaNumber (kenyaCode ++ ['7', '1', '2', '3', '4', '5', '6', '7', '8']) =
      .ok (kenyaCode ++ ['7', '1', '2', '3', '4', '5', '6', '7', '8']) ∧
     validateMpesaNumber ('+' :: (kenyaCode ++ ['7', '1', '2', '3', '4', '5', '6', '7', '8'])) =
      .ok (kenyaCode ++ ['7', '1', '2', '3', '4', '5', '6', '7', '8'])) :=
  ⟨validateMpesaNumber_spec.1 _ (by decide),
   validateMpesaNumber_spec.2 _ rfl (by decide) (by decide)⟩

/-- C9: phone normalisation is idempotent: when validateMpesaNumber accepts
an input x with canonical output f, then f is exactly the normalised form of
x, validating f again returns f itself, and normalising f again leaves it
fixed, so every accepted form of the same subscriber maps to the one
canonical string. -/

theorem normalizePhone_idempotent (x f : List Char)
    (h : validateMpesaNumber x = .ok f) :
    validateMpesaNumber f = .ok f ∧ f = normalizePhone x ∧
      normalizePhone f = f := by
  obtain ⟨hm, hs, hfmt⟩ := validateMpesaNumber_ok_inv h
  have hm' := hm
  unfold matches254Pattern at hm'
  rw [Bool.and_eq_true, Bool.and_eq_true] at hm'
  obtain ⟨⟨hlead, hlen⟩, hdig⟩ := hm'
  simp only [beq_iff_eq] at hlen
  obtain ⟨r, rfl⟩ := leadsWith_exists hlead
  have hdrop : (kenyaCode ++ r).drop 3 = r := by simp [kenyaCode]
  rw [hdrop] at hlen hdig
  have hcanon := validateMpesaNumber_canon hlen hdig hs
  refine ⟨hcanon, ?_, ?_⟩
  · unfold normalizePhone
    rw [hfmt]
    rfl
  · have hall := all_digits_canon hdig
    unfold normalizePhone
    rw [stripWhitespace_of_digits hall, stripNonDigits_of_digits hall,
      formatPhoneDigits_canon]
    rfl

/-- Closed instance of normalizePhone_idempotent at the concrete input
0712345678. -/

theorem normalizePhone_idempotent_witness :
    validateMpesaNumber ['2', '5', '4', '7', '1', '2', '3', '4', '5', '6', '7', '8'] =
      .ok ['2', '5', '4', '7', '1', '2', '3', '4', '5', '6', '7', '8'] ∧
    ['2', '5', '4', '7', '1', '2', '3', '4', '5', '6', '7', '8'] =
      normalizePhone ['0', '7', '1', '2', '3', '4', '5', '6', '7', '8'] ∧
    normalizePhone ['2', '5', '4', '7', '1', '2', '3', '4', '5', '6', '7', '8'] =
      ['2', '5', '4', '7', '1', '2', '3', '4', '5', '6', '7', '8'] :=
  normalizePhone_idempotent ['0', '7', '1', '2', '3', '4', '5', '6', '7', '8'] _ rfl

/-! ## Data model

Transaction ledger entries, booking records and the Firebase-backed record
store. Optional fields model keys that may be absent from a record; JS
falsiness of strings and numbers is modelled explicitly where the code
relies on it. -/


theorem Store.get_put_self {α : Type} (s : Store α) (k : String) (v : α) :
    (s.put k v).get k = some v := by
  induction s with
  | nil => simp [Store.put, Store.get]
  | cons p rest ih =>
    by_cases h : p.1 = k
    · simp [Store.put, Store.get, h]
    · simp [Store.put, Store.get, h, ih]

theorem Store.get_put_ne {α : Type} (s : Store α) (k j : String) (v : α)
    (h : j ≠ k) : (s.put k v).get j = s.get j := by
  induction s with
  | nil => simp [Store.put, Store.get, Ne.symm h]
  | cons p rest ih =>
    by_cases hp : p.1 = k
    · simp [Store.put, Store.get, hp, Ne.symm h, h, ih]
    · by_cases hj : p.1 = j <;>
        simp [Store.put, Store.get, hp, hj, h, Ne.symm h, ih]


/-- C1: for every inbound webhook request whose signature header is absent,
or whose HMAC-SHA512 digest under the configured secret does not match the
header, handleWebhook answers 401 unauthorized and returns the database
unchanged: no transaction record and no booking record is created or
updated, regardless of the payload. -/
theorem handleWebhook_unverified_rejected
    (hmacSha512 : String → WebhookEvent → String) (env : Env) (now : Nat)
    (db : DB) (req : WebhookRequest)
    (h : req.signature = none ∨
      ∃ s k, req.signature = some s ∧ env.webhookSecret = some k ∧
        hmacSha512 k req.body ≠ s) :
    handleWebhook hmacSha512 env now db req =
      (db, { status := 401, success := false,
             message := "Invalid webhook signature" }) := by
  have hv : verifyWebhookSignature hmacSha512 env req = false := by
    unfold verifyWebhookSignature
    rcases h with h | ⟨s, k, hs, hk, hne⟩
    · cases henv : env.webhookSecret <;> simp [h]
    · rw [hk, hs]
      simp [hne]
  unfold handleWebhook
  rw [hv]
  rfl

/-- Closed instance of handleWebhook_unverified_rejected: a concrete
webhook with no signature header leaves a sample database untouched. -/

theorem handleWebhook_unverified_rejected_witness :
    handleWebhook sampleHmac sampleEnv 0
        { transactions := [("t", { reference := "t", status := "pending" })] }
        { body := { event := "charge.success"
                    data := { reference := some "t" } }
          signature := none } =
      ({ transactions := [("t", { reference := "t", status := "pending" })] },
       { status := 401, success := false,
         message := "Invalid webhook signature" }) :=
  handleWebhook_unverified_rejected _ _ _ _ _ (Or.inl rfl)

/-! ## C5: booking-fee scenario end to end -/


/-- C5: initializing with email a@b.com, amount 500, bookingId bk1 and
payment_type booking_fee creates the ledger entry in status pending with
amount 500; the subsequent charge.success webhook for that reference with
payment_type booking_fee flips that ledger entry to success and sets
booking bk1 to status negotiating with bookingFeePaid true. -/
theorem bookingFee_scenario_end_to_end :
    ((c5Db1.transactions.get "booking_u123").map (fun t => (t.status, t.amount)) =
      some ("pending", 500)) ∧
    ((c5Db2.transactions.get "booking_u123").map Txn.status = some "success") ∧
    ((c5Db2.bookings.get "bk1").map (fun b => (b.status, b.bookingFeePaid)) =
      some (some "negotiating", some true)) := by
  refine ⟨?_, ?_, ?_⟩ <;> rfl

/-! ## C2: the success status is not protected against late failure events -/


/-- C2 counterexample: transaction r1 is in status success, yet delivering
a later signed charge.failed webhook for it overwrites the status to
failed, so success is not an invariant preserved by every reconciliation
input. -/
theorem success_overwritten_by_failed_webhook_cex :
    ((c2Db.transactions.get "r1").map Txn.status = some "success") ∧
    (((handleWebhook sampleHmac sampleEnv 5 c2Db c2Req).1.transactions.get "r1").map
        Txn.status = some "failed") := by
  refine ⟨?_, ?_⟩ <;> rfl

/-- C2 amended: once a transaction is in status success the user-initiated
cancel and retry operations reject it and leave the database unchanged,
but the invariant is not enforced against gateway events: a signed
charge.failed webhook delivery overwrites the success status to failed. -/

theorem success_status_partially_protected :
    (∀ (now : Nat) (db : DB) (reference : String) (reason : Option String) (txn : Txn),
      db.transactions.get reference = some txn → txn.status = "success" →
      (cancelPayment now db reference reason).1 = db ∧
      (cancelPayment now db reference reason).2.status = 400) ∧
    (∀ (uuid : String) (gatewayUp : Bool) (ts : Nat) (rs ctr : String) (now : Nat)
      (db : DB) (reference : String) (phone : Option (List Char))
      (email : Option String) (txn : Txn),
      db.transactions.get reference = some txn → txn.status = "success" →
      (retryMpesaPayment uuid gatewayUp ts rs ctr now db reference phone email).1 = db ∧
      (retryMpesaPayment uuid gatewayUp ts rs ctr now db reference phone email).2.status = 400) ∧
    (∀ (hmacSha512 : String → WebhookEvent → String) (env : Env) (now : Nat)
      (db : DB) (req : WebhookRequest) (reference : String) (txn : Txn),
      verifyWebhookSignature hmacSha512 env req = true →
      req.body.event = "charge.failed" →
      req.body.data.reference = some reference → reference ≠ "" →
      db.transactions.get reference = some txn → txn.status = "success" →
      (((handleWebhook hmacSha512 env now db req).1.transactions.get reference).map
        Txn.status = some "failed")) := by
  refine ⟨?_, ?_, ?_⟩
  · intro now db reference reason txn hget hst
    unfold cancelPayment
    by_cases href : reference = ""
    · simp [href]
    · rw [hget]
      simp [href, hst]
  · intro uuid gatewayUp ts rs ctr now db reference phone email txn hget hst
    unfold retryMpesaPayment
    by_cases href : reference = ""
    · simp [href]
    · rw [hget]
      simp [href, hst]
  · intro hmacSha512 env now db req reference txn hv hev href hne hget hst
    have hrefeq : (reference == "") = false := by simp [hne]
    have h1 : ("charge.failed" == "charge.success") = false := by decide
    have h2 : ("charge.failed" == "charge.failed") = true := by decide
    unfold handleWebhook DB.putTxn
    rw [hv, href, hev]
    simp [hrefeq, hget, h1, h2, Store.get_put_self]

/-- Closed instance of success_status_partially_protected: cancel and retry
leave the concrete success transaction r1 untouched with a 400 response,
and a signed charge.failed webhook flips it to failed. -/

theorem success_status_partially_protected_witness :
    ((cancelPayment 3 c2Db "r1" none).1 = c2Db ∧
     (cancelPayment 3 c2Db "r1" none).2.status = 400) ∧
    ((retryMpesaPayment "u" true 1 "r" "c" 3 c2Db "r1" none none).1 = c2Db ∧
     (retryMpesaPayment "u" true 1 "r" "c" 3 c2Db "r1" none none).2.status = 400) ∧
    (((handleWebhook sampleHmac sampleEnv 5 c2Db c2Req).1.transactions.get "r1").map
        Txn.status = some "failed") :=
  ⟨success_status_partially_protected.1 3 c2Db "r1" none _ rfl rfl,
   success_status_partially_protected.2.1 "u" true 1 "r" "c" 3 c2Db "r1" none none _ rfl rfl,
   success_status_partially_protected.2.2 sampleHmac sampleEnv 5 c2Db c2Req "r1" _
     rfl rfl rfl (by decide) rfl rfl⟩

/-! ## C3: duplicate charge.success deliveries re-apply booking mutations -/

theorem countBookingWrites_append (a b : List DbEvent) :
    countBookingWrites (a ++ b) = countBookingWrites a + countBookingWrites b := by
  simp [countBookingWrites, List.filter_append]


/-- C3 counterexample: for a transaction already in success, the duplicate
delivery of the same charge.success webhook through the variant-1 handler
performs a second booking update: the booking-update count after the
duplicate delivery (2) does not equal the count after the first delivery
(1), so webhook handling is not idempotent in its business effect; the
activity-log count stays at zero on this path. -/
theorem duplicate_webhook_double_mutation_cex :
    countBookingWrites c3Db1.events = 1 ∧ countBookingWrites c3Db2.events = 2 ∧
    bookingLogCount c3Db1 "bk3" = 0 ∧ bookingLogCount c3Db2 "bk3" = 0 := by
  refine ⟨?_, ?_, ?_, ?_⟩ <;> rfl

/-- C3 amended: webhook handling is not idempotent in its business effect
under the variant-1 handler: every signed charge.success delivery for an
existing transaction that resolves to a bookingId performs exactly one
more booking update, regardless of the current transaction status, so a
duplicate delivery doubles the booking-update count; that path appends no
activity-log entries, so the log store is unchanged. The logger-variant
handler throws a ReferenceError inside its own try block before any store
access and answers 500, performing no booking mutation at all. -/

theorem chargeSuccess_delivery_adds_one_mutation :
    (∀ (hmacSha512 : String → WebhookEvent → String) (env : Env) (now : Nat)
      (db : DB) (req : WebhookRequest) (reference : String) (txn : Txn) (bid : String),
      verifyWebhookSignature hmacSha512 env req = true →
      req.body.event = "charge.success" →
      req.body.data.reference = some reference → reference ≠ "" →
      db.transactions.get reference = some txn →
      jsOrOpt ((req.body.data.metadata.getD {}).booking_id) txn.bookingId = some bid →
      countBookingWrites (handleWebhook hmacSha512 env now db req).1.events =
        countBookingWrites db.events + 1 ∧
      (handleWebhook hmacSha512 env now db req).1.bookingLogs = db.bookingLogs) ∧
    (∀ (hmacSha512 : String → WebhookEvent → String) (env : Env) (now : Nat)
      (db : DB) (req : WebhookRequest),
      handleWebhookL hmacSha512 env now db req =
        (db, { status := 500, success := false,
               message := "Cannot access 'event' before initialization" })) := by
  constructor
  · intro hmacSha512 env now db req reference txn bid hv hev href hne hget hbid
    have hrefeq : (reference == "") = false := by simp [hne]
    have h1 : ("charge.success" == "charge.success") = true := by decide
    unfold handleWebhook DB.putTxn DB.putBooking
    rw [hv, href, hev]
    simp [hrefeq, hget, h1, hbid, countBookingWrites_append, countBookingWrites]
  · intro hmacSha512 env now db req
    rfl

/-- Closed instance of chargeSuccess_delivery_adds_one_mutation at the C3
fixture: one variant-1 delivery adds one booking write and leaves the log
store unchanged, and the logger variant answers 500 without mutating. -/

theorem chargeSuccess_delivery_adds_one_mutation_witness :
    (countBookingWrites c3Db1.events = countBookingWrites c3Db.events + 1 ∧
     (handleWebhook sampleHmac sampleEnv 1 c3Db c3Req).1.bookingLogs = c3Db.bookingLogs) ∧
    handleWebhookL sampleHmac sampleEnv 1 c3Db c3Req =
      (c3Db, { status := 500, success := false,
               message := "Cannot access 'event' before initialization" }) :=
  ⟨chargeSuccess_delivery_adds_one_mutation.1 sampleHmac sampleEnv 1 c3Db c3Req
      "r3" _ "bk3" rfl rfl rfl (by decide) rfl rfl,
   chargeSuccess_delivery_adds_one_mutation.2 sampleHmac sampleEnv 1 c3Db c3Req⟩

/-! ## C4: what the escrow success branch writes on the booking -/


/-- C4 counterexample: on a successful escrow payment webhook the booking
status is not left unchanged: booking bk4 starts in status pending and
ends in status confirmed after the charge.success escrow delivery. -/
theorem webhook_escrow_sets_confirmed_cex :
    ((c4Db.bookings.get "bk4").map Booking.status = some (some "pending")) ∧
    (((handleWebhook sampleHmac sampleEnv 7 c4Db c4Req).1.bookings.get "bk4").map
        Booking.status = some (some "confirmed")) := by
  refine ⟨?_, ?_⟩ <;> rfl

/-- C4 amended: on a successful escrow payment, the verify-poll path sets
on the booking exactly escrowPaid, escrowAmount (the gateway amount divided
by 100), escrowStatus held and the escrow reference and timestamp, leaving
the status field (and every other field) unchanged; the webhook path sets
the same escrow fields but additionally stamps lastUpdated and overwrites
the booking status with "confirmed". -/

theorem escrow_branch_field_effects :
    (∀ (gw : VerifyGatewayResponse) (now : Nat) (db : DB) (reference : String)
      (b : Booking) (bid : String),
      gw.ok = true → gw.data.status = "success" →
      gw.data.metadata.booking_id = some bid →
      jsOrString gw.data.metadata.payment_type "booking" = "escrow" →
      reference ≠ "" →
      db.bookings.get bid = some b →
      (verifyPayment gw now db reference).1.bookings.get bid = some
        { b with
          escrowPaid := some true
          escrowAmount := some (gw.data.amount / 100)
          escrowReference := some reference
          escrowPaidAt := some now
          escrowStatus := some "held" }) ∧
    (∀ (hmacSha512 : String → WebhookEvent → String) (env : Env) (now : Nat)
      (db : DB) (req : WebhookRequest) (reference : String) (txn : Txn)
      (bid : String) (a : Rat),
      verifyWebhookSignature hmacSha512 env req = true →
      req.body.event = "charge.success" →
      req.body.data.reference = some reference → reference ≠ "" →
      db.transactions.get reference = some txn →
      jsOrOpt ((req.body.data.metadata.getD {}).booking_id) txn.bookingId = some bid →
      (req.body.data.metadata.getD {}).payment_type = some "escrow" →
      req.body.data.amount = some a →
      (handleWebhook hmacSha512 env now db req).1.bookings.get bid = some
        { ((db.bookings.get bid).getD {}) with
          lastUpdated := some now
          status := some "confirmed"
          escrowPaid := some true
          escrowAmount := some (a / 100)
          escrowReference := some reference
          escrowPaidAt := some now
          escrowStatus := some "held" }) := by
  constructor
  · intro gw now db reference b bid hok hst hbidm hpt hne hb
    have hrefeq : (reference == "") = false := by simp [hne]
    have h1 : (jsOrString gw.data.metadata.payment_type "booking" == "booking_fee") = false := by
      rw [hpt]; decide
    have h2 : (jsOrString gw.data.metadata.payment_type "booking" == "escrow") = true := by
      rw [hpt]; decide
    have hs : (gw.data.status == "success") = true := by rw [hst]; decide
    unfold verifyPayment DB.putTxn DB.putBooking
    rw [hok, hrefeq, hbidm]
    simp [hs, h1, h2, hb, Store.get_put_self]
  · intro hmacSha512 env now db req reference txn bid a hv hev href hne hget hbid hpt hamt
    have hrefeq : (reference == "") = false := by simp [hne]
    have h1 : ("charge.success" == "charge.success") = true := by decide
    unfold handleWebhook DB.putTxn DB.putBooking
    rw [hv, href, hev]
    simp [hrefeq, hget, h1, hbid, hpt, hamt, Store.get_put_self]

/-- Closed instance of escrow_branch_field_effects: the verify-poll escrow
branch at a concrete booking leaves status untouched, and the webhook
escrow branch at the C4 fixture stamps confirmed. -/

theorem escrow_branch_field_effects_witness :
    ((verifyPayment
        { ok := true
          data := { status := "success", amount := 80000
                    metadata := { payment_type := some "escrow", booking_id := some "bk4" } } }
        9 c4Db "r4").1.bookings.get "bk4" = some
      { status := some "pending"
        escrowPaid := some true
        escrowAmount := some (80000 / 100 : Rat)
        escrowReference := some "r4"
        escrowPaidAt := some 9
        escrowStatus := some "held" }) ∧
    ((handleWebhook sampleHmac sampleEnv 7 c4Db c4Req).1.bookings.get "bk4" = some
      { status := some "confirmed"
        lastUpdated := some 7
        escrowPaid := some true
        escrowAmount := some (80000 / 100 : Rat)
        escrowReference := some "r4"
        escrowPaidAt := some 7
        escrowStatus := some "held" }) :=
  ⟨escrow_branch_field_effects.1
      { ok := true
        data := { status := "success", amount := 80000
                  metadata := { payment_type := some "escrow", booking_id := some "bk4" } } }
      9 c4Db "r4" { status := some "pending" } "bk4" rfl rfl rfl rfl (by decide) rfl,
   escrow_branch_field_effects.2 sampleHmac sampleEnv 7 c4Db c4Req "r4" _ "bk4"
      80000 rfl rfl rfl (by decide) rfl rfl rfl rfl⟩

/-! ## C7: escrow release preconditions and idempotence of rejection -/

/-- C7: escrow release requires both completion timestamps and a
not-yet-released escrow; when teacherCompletedAt is absent (JS-falsy) the
call is rejected with the both-parties precondition error and the database
is unchanged; when the preconditions hold the booking is updated to
escrowStatus released and status completed, and a second release call for
the same booking is rejected with "Escrow has already been released"
without touching the state again. -/

theorem releaseEscrow_spec (now now2 : Nat) (db : DB) (req : ReleaseRequest)
    (b : Booking)
    (hb : db.bookings.get req.bookingId = some b)
    (hbid : req.bookingId ≠ "") (hph : req.teacherPhone ≠ "")
    (hamt : req.amount.getD 0 ≠ 0) :
    (optNatFalsy b.teacherCompletedAt = true →
      releaseEscrow now db req =
        (db, { status := 400, success := false,
               message := "Both parties must confirm completion before releasing escrow" })) ∧
    (optNatFalsy b.parentCompletedAt = false →
     optNatFalsy b.teacherCompletedAt = false →
     b.escrowStatus ≠ some "released" →
      releaseEscrow now db req =
        (db.putBooking req.bookingId
          { b with
            escrowStatus := some "released"
            paymentStatus := some "paid"
            paidAt := some now
            status := some "completed" },
         { status := 200, success := true,
           message := "Escrow payment released successfully" }) ∧
      releaseEscrow now2 (releaseEscrow now db req).1 req =
        ((releaseEscrow now db req).1,
         { status := 400, success := false,
           message := "Escrow has already been released" })) := by
  have hbid' : (req.bookingId == "") = false := by simp [hbid]
  have hph' : (req.teacherPhone == "") = false := by simp [hph]
  have hamt' : (req.amount.getD 0 == 0) = false := by simp [hamt]
  constructor
  · intro ht
    unfold releaseEscrow
    rw [hbid', hph', hamt', hb]
    simp [ht]
  · intro hp ht hrel
    have hfirst : releaseEscrow now db req =
        (db.putBooking req.bookingId
          { b with
            escrowStatus := some "released"
            paymentStatus := some "paid"
            paidAt := some now
            status := some "completed" },
         { status := 200, success := true,
           message := "Escrow payment released successfully" }) := by
      unfold releaseEscrow
      rw [hbid', hph', hamt', hb]
      simp [hp, ht, hrel]
    refine ⟨hfirst, ?_⟩
    rw [hfirst]
    unfold releaseEscrow DB.putBooking
    rw [hbid', hph', hamt']
    simp [Store.get_put_self, hp, ht]

/-- Closed instance of releaseEscrow_spec: a concrete booking with both
completion timestamps releases once and the second call is rejected, and
the same booking with teacherCompletedAt removed is rejected with the
precondition error. -/

theorem releaseEscrow_spec_witness :
    (releaseEscrow 50
        { bookings := [("bk7",
            { parentCompletedAt := some 1, teacherCompletedAt := some 2,
              escrowStatus := some "held" })] }
        { bookingId := "bk7", teacherPhone := "0712", amount := some 900 } =
      (DB.putBooking
        { bookings := [("bk7",
            { parentCompletedAt := some 1, teacherCompletedAt := some 2,
              escrowStatus := some "held" })] } "bk7"
        { parentCompletedAt := some 1, teacherCompletedAt := some 2,
          escrowStatus := some "released", paymentStatus := some "paid",
          paidAt := some 50, status := some "completed" },
       { status := 200, success := true,
         message := "Escrow payment released successfully" }) ∧
     releaseEscrow 60
        (releaseEscrow 50
          { bookings := [("bk7",
              { parentCompletedAt := some 1, teacherCompletedAt := some 2,
                escrowStatus := some "held" })] }
          { bookingId := "bk7", teacherPhone := "0712", amount := some 900 }).1
        { bookingId := "bk7", teacherPhone := "0712", amount := some 900 } =
      ((releaseEscrow 50
          { bookings := [("bk7",
              { parentCompletedAt := some 1, teacherCompletedAt := some 2,
                escrowStatus := some "held" })] }
          { bookingId := "bk7", teacherPhone := "0712", amount := some 900 }).1,
       { status := 400, success := false,
         message := "Escrow has already been released" })) ∧
    (releaseEscrow 50
        { bookings := [("bk8", { parentCompletedAt := some 1 })] }
        { bookingId := "bk8", teacherPhone := "0712", amount := some 900 } =
      ({ bookings := [("bk8", { parentCompletedAt := some 1 })] },
       { status := 400, success := false,
         message := "Both parties must confirm completion before releasing escrow" })) :=
  ⟨(releaseEscrow_spec 50 60
      { bookings := [("bk7",
          { parentCompletedAt := some 1, teacherCompletedAt := some 2,
            escrowStatus := some "held" })] }
      { bookingId := "bk7", teacherPhone := "0712", amount := some 900 }
      _ rfl (by decide) (by decide) (by decide)).2 rfl rfl (by decide),
   (releaseEscrow_spec 50 60
      { bookings := [("bk8", { parentCompletedAt := some 1 })] }
      { bookingId := "bk8", teacherPhone := "0712", amount := some 900 }
      _ rfl (by decide) (by decide) (by decide)).1 rfl⟩

/-! ## C6: retry gating and the reference of the new ledger entry

Note on the reported reference: retryMpesaPayment delegates to
processMpesaPaymentDirect passing the live response object, so the direct
handler sends the HTTP response (carrying its own generated `mpesa_`
reference, the key of the new ledger entry) before the retry handler
reaches its final res.status(200).json; that later send and the catch
fallback throw ERR_HTTP_HEADERS_SENT and the caller observes the direct
response. The `retry_` reference is only recorded on the original entry. -/

/-- C6: retry is permitted only for a transaction in status failed (any
other status is rejected with a 400 and no state change); a permitted
retry marks the original entry retrying, creates a new pending ledger
entry whose metadata original_reference is the original reference, and the
reference reported to the caller (the one in the response the client
receives) is exactly the key under which the new ledger entry is stored. -/

theorem retryMpesaPayment_spec :
    (∀ (uuid : String) (gatewayUp : Bool) (ts : Nat) (rs ctr : String) (now : Nat)
      (db : DB) (reference : String) (phone : Option (List Char))
      (email : Option String) (txn : Txn),
      db.transactions.get reference = some txn → txn.status ≠ "failed" →
      (retryMpesaPayment uuid gatewayUp ts rs ctr now db reference phone email).1 = db ∧
      (retryMpesaPayment uuid gatewayUp ts rs ctr now db reference phone email).2.status = 400) ∧
    (∀ (uuid : String) (ts : Nat) (rs ctr : String) (now : Nat) (db : DB)
      (reference : String) (phone : Option (List Char)) (email : Option String)
      (txn : Txn) (p : List Char) (bid : String),
      reference ≠ "" →
      db.transactions.get reference = some txn →
      txn.status = "failed" →
      jsOrPhone phone txn.phone = some p → p ≠ [] →
      matches254Pattern (formatPhoneLoose p) = true →
      txn.amount ≠ 0 →
      jsOrString email txn.email ≠ "" →
      txn.bookingId = some bid → bid ≠ "" →
      reference ≠ mpesaDirectReference bid ts rs ctr →
      ((retryMpesaPayment uuid true ts rs ctr now db reference phone email).1.transactions.get
          reference).map Txn.status = some "retrying" ∧
      ((retryMpesaPayment uuid true ts rs ctr now db reference phone email).1.transactions.get
          (mpesaDirectReference bid ts rs ctr)).map
          (fun t => (t.status, t.metadata.original_reference)) =
        some ("pending", some reference) ∧
      (retryMpesaPayment uuid true ts rs ctr now db reference phone email).2.dataReference =
        some (mpesaDirectReference bid ts rs ctr) ∧
      (retryMpesaPayment uuid true ts rs ctr now db reference phone email).2.status = 200) := by
  constructor
  · intro uuid gatewayUp ts rs ctr now db reference phone email txn hget hst
    unfold retryMpesaPayment
    by_cases href : reference = ""
    · simp [href]
    · rw [hget]
      have hstf : (txn.status != "failed") = true := by simp [hst]
      simp [href, hstf]
  · intro uuid ts rs ctr now db reference phone email txn p bid href hget hst hjs
      hpne hfmt hamt hemail hbidm hbidne hne
    have hrefeq : (reference == "") = false := by simp [href]
    have hstf : (txn.status != "failed") = false := by simp [hst]
    have hpe : ((jsOrPhone phone txn.phone).getD []).isEmpty = false := by
      rw [hjs]
      cases p with
      | nil => exact absurd rfl hpne
      | cons a l => rfl
    have hamt' : ((txn.amount : Rat) == 0) = false := by simp [hamt]
    have hem' : (jsOrString email txn.email == "") = false := by simp [hemail]
    have hbid' : (txn.bookingId.getD "" == "") = false := by rw [hbidm]; simp [hbidne]
    unfold retryMpesaPayment processMpesaPaymentDirect DB.putTxn
    rw [hget]
    simp [hrefeq, hstf, hjs, hpe, hamt', hem', hbid', hbidm, hfmt, hpne, hbidne,
      Store.get_put_self, Store.get_put_ne _ _ _ _ hne]

/-- Closed instance of retryMpesaPayment_spec: retry of the concrete failed
transaction oldref marks it retrying, stores the new pending entry under
the generated mpesa reference linked through original_reference, and the
response carries exactly that storage key; retry of a success transaction
is covered by the success_status theorems. -/

theorem retryMpesaPayment_spec_witness :
    (((retryMpesaPayment "u6" true 5 "rand" "0001" 9
        { transactions := [("oldref",
            { reference := "oldref", status := "failed", bookingId := some "bk6",
              email := "u@x.com",
              phone := some ['0', '7', '1', '2', '3', '4', '5', '6', '7', '8'],
              amount := 300 })] }
        "oldref" none none).1.transactions.get "oldref").map Txn.status =
      some "retrying") ∧
    (((retryMpesaPayment "u6" true 5 "rand" "0001" 9
        { transactions := [("oldref",
            { reference := "oldref", status := "failed", bookingId := some "bk6",
              email := "u@x.com",
              phone := some ['0', '7', '1', '2', '3', '4', '5', '6', '7', '8'],
              amount := 300 })] }
        "oldref" none none).1.transactions.get
        (mpesaDirectReference "bk6" 5 "rand" "0001")).map
        (fun t => (t.status, t.metadata.original_reference)) =
      some ("pending", some "oldref")) ∧
    ((retryMpesaPayment "u6" true 5 "rand" "0001" 9
        { transactions := [("oldref",
            { reference := "oldref", status := "failed", bookingId := some "bk6",
              email := "u@x.com",
              phone := some ['0', '7', '1', '2', '3', '4', '5', '6', '7', '8'],
              amount := 300 })] }
        "oldref" none none).2.dataReference =
      some (mpesaDirectReference "bk6" 5 "rand" "0001")) ∧
    ((retryMpesaPayment "u6" true 5 "rand" "0001" 9
        { transactions := [("oldref",
            { reference := "oldref", status := "failed", bookingId := some "bk6",
              email := "u@x.com",
              phone := some ['0', '7', '1', '2', '3', '4', '5', '6', '7', '8'],
              amount := 300 })] }
        "oldref" none none).2.status = 200) :=
  retryMpesaPayment_spec.2 "u6" 5 "rand" "0001" 9 _ "oldref" none none _
    ['0', '7', '1', '2', '3', '4', '5', '6', '7', '8'] "bk6"
    (by decide) rfl rfl rfl (by decide) (by decide) (by decide) (by decide)
    rfl (by decide) (by decide)

/-! ## C10: test mode substitutes phone, email and a random amount -/


/-- C10: when the configured secret key starts with sk_test_,
processMpesaPayment ignores the caller phone, email and amount: the ledger
entry records the fixed test number 254708374176, the email
test@example.com, and an amount drawn from the set 100..1000 by the random
index; concretely, requesting amount 50 records 100 (a different amount),
and two different random draws record different amounts for the same
request, so the operation is not deterministic in its inputs. -/
theorem processMpesaPayment_testMode_spec :
    (∀ (env : Env) (i : Fin 10) (uuid1 uuid2 accessCode : String)
      (cs : ChargeStatus) (now : Nat) (db : DB) (req : MpesaRequest) (k : String),
      env.secretKey = some k → strStartsWith k "sk_test_" = true →
      req.phone ≠ [] → req.amount.getD 0 ≠ 0 → req.email ≠ "" → req.bookingId ≠ "" →
      ((processMpesaPayment env i uuid1 uuid2 true true accessCode cs now db
          req).1.transactions.get ("init_" ++ uuid1)).map
          (fun t => (t.phone, t.email, t.amount)) =
        some (some paystackTestPhone, "test@example.com", testAmounts.getD i.val 0) ∧
      testAmounts.getD i.val 0 ∈ testAmounts) ∧
    (((processMpesaPayment testEnvC10 0 "u1" "u2" true true "ac" (.boolStatus true) 0 {}
        c10Req).1.transactions.get "init_u1").map Txn.amount = some 100 ∧
     c10Req.amount = some 50 ∧ (100 : Rat) ≠ 50) ∧
    (((processMpesaPayment testEnvC10 0 "u1" "u2" true true "ac" (.boolStatus true) 0 {}
        c10Req).1.transactions.get "init_u1").map Txn.amount = some 100 ∧
     ((processMpesaPayment testEnvC10 1 "u1" "u2" true true "ac" (.boolStatus true) 0 {}
        c10Req).1.transactions.get "init_u1").map Txn.amount = some 200) := by
  refine ⟨?_, ⟨?_, ?_, ?_⟩, ?_, ?_⟩
  · intro env i uuid1 uuid2 accessCode cs now db req k hk hstart hphone hamt hemail hbid
    have hpe : req.phone.isEmpty = false := by
      cases hp : req.phone with
      | nil => exact absurd hp hphone
      | cons a l => rfl
    have hamt' : (req.amount.getD 0 == 0) = false := by simp [hamt]
    have hem' : (req.email == "") = false := by simp [hemail]
    have hbid' : (req.bookingId == "") = false := by simp [hbid]
    constructor
    · unfold processMpesaPayment DB.putTxn
      rw [hk]
      simp [hpe, hamt', hem', hbid', hstart, Store.get_put_self]
    · have hlt : i.val < 10 := i.isLt
      fin_cases i <;> decide
  · rfl
  · rfl
  · decide
  · rfl
  · rfl

/-- Closed instance of the universal part of
processMpesaPayment_testMode_spec at the concrete test environment,
request and random index 2: the ledger entry carries the test phone, the
test email and the amount 300 from the test set. -/

theorem processMpesaPayment_testMode_spec_witness :
    ((processMpesaPayment testEnvC10 2 "u1" "u2" true true "ac" (.boolStatus true) 0 {}
        c10Req).1.transactions.get ("init_" ++ "u1")).map
        (fun t => (t.phone, t.email, t.amount)) =
      some (some paystackTestPhone, "test@example.com", testAmounts.getD (2 : Fin 10).val 0) ∧
    testAmounts.getD (2 : Fin 10).val 0 ∈ testAmounts :=
  processMpesaPayment_testMode_spec.1 testEnvC10 2 "u1" "u2" "ac" (.boolStatus true)
    0 {} c10Req "sk_test_abc" rfl (by decide) (by decide) (by decide) (by decide)
    (by decide)

end Shulegram
